import Mathlib

/-!
Verification development for the AutoDeploy deployment decision and
orchestration engine.

The definitions below are a shallow embedding of the TypeScript backend:

* `getFallbackAnalysis`, `detectFramework`, `analyzeRepositoryWithAI` embed
  the analysis service (`analysis.service.ts` and `repositories.service.ts`).
  The external AI completion is modelled as an explicit outcome parameter
  (`AIOutcome`): an errored call, a response whose content fails JSON
  parsing, or a successfully parsed analysis value.
* `createDeployment` embeds the deployments controller dispatch.
* `deployToVercel`, `deployToNetlify`, `rollbackDeployment` embed the
  deployments service.  Database writes to the `deployments` table are
  reified as a trace of `StoreOp`s and provider-adapter invocations as a
  trace of `AdapterCall`s; network results are oracle parameters.
  The find-or-create of the surrounding `organization`/`project` rows is
  elided: the claims under study concern deployment-record writes and
  adapter calls only.
* `connectProvider` embeds the integrations controller's credential
  connect, reified to the value written to the `encryptedToken` column.
* `createSiteFromRepo` embeds the Netlify service's site creation with
  every `fetch` outcome supplied by a `NetOracle`.
* `encryptToken` / `decryptToken` embed the documented `TokenVault`.
  The Node `crypto` primitives (PBKDF2, AES-256-GCM) are external library
  code and are modelled as ideal functionalities: a derived key is the
  record of its inputs, a ciphertext is the record of key and plaintext,
  and a GCM auth tag is the record of key, associated data and ciphertext,
  so that authentication succeeds exactly when key and AAD match.
-/

/- ### Character/string helpers mirroring the JavaScript string operations -/

/-- Boolean test that `p` is an initial segment of `l` (JS `startsWith` on
character lists). -/
def startsWithChars : List Char → List Char → Bool
  | [], _ => true
  | _ :: _, [] => false
  | p :: ps, c :: cs => p == c && startsWithChars ps cs

/-- Suffix of `l` that follows the first occurrence of `pat`, if any
(the character-level core of a JS `String.indexOf`-style search). -/
def charsAfterFirst (pat : List Char) : List Char → Option (List Char)
  | [] => none
  | c :: cs =>
    if startsWithChars pat (c :: cs) then some ((c :: cs).drop pat.length)
    else charsAfterFirst pat cs

/-- Removes the first occurrence of `pat` from `l` (JS
`String.prototype.replace` with a string pattern and empty replacement). -/
def removeFirstChars (pat : List Char) : List Char → List Char
  | [] => []
  | c :: cs =>
    if startsWithChars pat (c :: cs) then (c :: cs).drop pat.length
    else c :: removeFirstChars pat cs

/-- JS `a.includes(b)` on strings. -/
def containsStr (s pat : String) : Bool :=
  (charsAfterFirst pat.toList s.toList).isSome

/-- JS `s.toLowerCase()` (ASCII, which is all the code uses). -/
def lowerStr (s : String) : String :=
  ⟨s.toList.map Char.toLower⟩

/-- JS `s.toLowerCase().replace(/[^a-z0-9-]/g, '-')`, the site/slug
sanitiser used by the deployment and Netlify services. -/
def sanitizeName (s : String) : String :=
  ⟨(lowerStr s).toList.map fun c =>
    if (c.isLower || c.isDigit || c == '-') then c else '-'⟩

/- ### Detection / analysis model (analysis.service.ts, repositories.service.ts) -/

/-- A parsed `package.json`, reduced to the fields the detection code reads:
the dependency maps.  A mapping is a name/version association list; JS
truthiness of a looked-up version is modelled as presence in the list. -/
structure PackageJson where
  dependencies : Option (List (String × String))
  devDependencies : Option (List (String × String))
deriving Repr, DecidableEq

/-- Looks up dependency `n` in an optional dependency map. -/
def depVersion (deps : Option (List (String × String))) (n : String) : Option String :=
  match deps with
  | none => none
  | some l => l.lookup n

/-- JS truthiness of `deps?.[n]`. -/
def hasDep (deps : Option (List (String × String))) (n : String) : Bool :=
  (depVersion deps n).isSome

/-- Repository signal data handed to the analysis service, reduced to the
fields `getFallbackAnalysis` and `detectFramework` read. -/
structure RepoData where
  name : String
  packageJson : Option PackageJson
  dockerFile : Option String
deriving Repr, DecidableEq

structure FrameworkInfo where
  name : String
  version : String
  confidence : ℚ
deriving Repr, DecidableEq

structure BuildSettingsOut where
  buildCommand : String
  startCommand : String
  outputDirectory : String
  installCommand : String
deriving Repr, DecidableEq

structure DeploymentAdvice where
  recommendedProvider : String
  reason : String
  estimatedCost : String
deriving Repr, DecidableEq

structure AnalysisResult where
  framework : FrameworkInfo
  buildSettings : BuildSettingsOut
  deployment : DeploymentAdvice
deriving Repr, DecidableEq

/-- `AnalysisService.getFallbackAnalysis`: the rule-based analysis used when
the AI call fails or its response cannot be parsed.  Mirrors the
if/else-if chain over `packageJson.dependencies`, the
`framework.toLowerCase()` version lookup, the `framework.includes('Next')`
output-directory choice and the fixed 0.7 confidence. -/
def getFallbackAnalysis (rd : RepoData) : AnalysisResult :=
  let deps := match rd.packageJson with
    | none => none
    | some pj => pj.dependencies
  let fpc : String × String × String :=
    if hasDep deps "next" then ("Next.js", "vercel", "npm start")
    else if hasDep deps "react" && !hasDep deps "next" then ("React", "netlify", "npm start")
    else if hasDep deps "express" then ("Express.js", "render", "npm run start")
    else if hasDep deps "vue" then ("Vue.js", "netlify", "npm start")
    else if hasDep deps "svelte" then ("Svelte", "vercel", "npm start")
    else ("Unknown", "vercel", "npm start")
  let framework := fpc.1
  let provider := fpc.2.1
  let startCommand := fpc.2.2
  { framework :=
      { name := framework
        version := (depVersion deps (lowerStr framework)).getD "unknown"
        confidence := (7 : ℚ) / 10 }
    buildSettings :=
      { buildCommand := "npm run build"
        startCommand := startCommand
        outputDirectory := if containsStr framework "Next" then ".next" else "dist"
        installCommand := "npm install" }
    deployment :=
      { recommendedProvider := provider
        reason := framework ++ " works well with " ++ provider
        estimatedCost := "Free tier available" } }

structure DetectedFramework where
  name : String
  version : Option String
  confidence : ℚ
  provider : String
  buildCommand : String
  startCommand : String
deriving Repr, DecidableEq

/-- `RepositoriesService.detectFramework`: rule chain over the merged
`dependencies`/`devDependencies` of a `package.json`.  It consults only the
dependency maps — the presence of a `Dockerfile` is not an input. -/
def detectFramework (pj : PackageJson) : DetectedFramework :=
  let deps : Option (List (String × String)) :=
    some ((pj.devDependencies.getD []) ++ (pj.dependencies.getD []))
  if hasDep deps "next" then
    { name := "Next.js", version := depVersion deps "next", confidence := (95 : ℚ) / 100
      provider := "vercel", buildCommand := "npm run build", startCommand := "npm run start" }
  else if hasDep deps "react" && !hasDep deps "next" then
    { name := "React", version := depVersion deps "react", confidence := (85 : ℚ) / 100
      provider := "netlify", buildCommand := "npm run build", startCommand := "npm run start" }
  else if hasDep deps "express" then
    { name := "Express.js", version := depVersion deps "express", confidence := (90 : ℚ) / 100
      provider := "render", buildCommand := "npm install", startCommand := "npm run start" }
  else
    { name := "Node.js", version := none, confidence := (60 : ℚ) / 100
      provider := "render", buildCommand := "npm install", startCommand := "npm run start" }

/-- Outcome of the external `openai.chat.completions.create` call inside
`analyzeRepositoryWithAI`: the request can throw, or return content that
fails `JSON.parse`, or return content parsing to an analysis value. -/
inductive AIOutcome
  | err
  | unparseable
  | parsed (a : AnalysisResult)
deriving Repr, DecidableEq

/-- `AnalysisService.analyzeRepositoryWithAI`, with the AI completion made
an explicit input: on a throwing call or an unparseable response the
rule-based fallback is returned, otherwise the parsed AI value is returned
as-is. -/
def analyzeRepositoryWithAI (rd : RepoData) (o : AIOutcome) : AnalysisResult :=
  match o with
  | .err => getFallbackAnalysis rd
  | .unparseable => getFallbackAnalysis rd
  | .parsed a => a

/- ### Deployments controller (deployments.controller.ts) -/

/-- The explicit build-configuration shape the controller defaults and the
service stores (`buildCommand`/`outputDirectory`/`installCommand`). -/
structure BuildCfg where
  buildCommand : String
  outputDirectory : String
  installCommand : String
deriving Repr, DecidableEq, Inhabited

/-- The request body of `POST /deployments`, reduced to the fields the
controller destructures. -/
structure DeploymentRequest where
  projectId : String
  repositoryUrl : String
  branch : Option String
  provider : Option String
  buildSettings : Option BuildCfg
deriving Repr, DecidableEq

/-- The parameter object the controller passes to the deployments service. -/
structure DeployParams where
  userId : String
  projectId : String
  repositoryUrl : String
  branch : String
  buildSettings : BuildCfg
  githubToken : String
deriving Repr, DecidableEq

/-- The controller's construction of the service parameters: `branch` and
`buildSettings` defaulted, `githubToken` a hard-coded placeholder. -/
def mkDeployParams (userId : String) (d : DeploymentRequest) : DeployParams :=
  { userId := userId
    projectId := d.projectId
    repositoryUrl := d.repositoryUrl
    branch := d.branch.getD "main"
    buildSettings := d.buildSettings.getD ⟨"npm run build", "build", "npm install"⟩
    githubToken := "user-github-token" }

/-- Where `DeploymentsController.createDeployment` sends a request. -/
inductive Dispatch
  | toVercel (p : DeployParams)
  | toNetlify (p : DeployParams)
deriving Repr, DecidableEq

/-- `DeploymentsController.createDeployment`: the provider switch.  The
`default` arm of the switch falls through to the Netlify path; there is no
validation or conflict branch in the source. -/
def createDeployment (userId : String) (d : DeploymentRequest) : Dispatch :=
  let p := mkDeployParams userId d
  if d.provider = some "vercel" then .toVercel p
  else if d.provider = some "netlify" then .toNetlify p
  else .toNetlify p

/- ### Deployment record store and adapter-call traces -/

structure LogEntry where
  timestamp : Nat
  message : String
  level : String
deriving Repr, DecidableEq, BEq

structure DeploymentRow where
  id : Nat
  projectId : String
  branch : String
  commitSha : String
  status : String
  provider : String
  environment : String
  configuration : BuildCfg
  url : Option String
  logs : List LogEntry
  startedAt : Nat
  createdBy : String
deriving Repr, DecidableEq, Inhabited

/-- A write performed against the `deployments` table.  `updateRecord`
carries the full field values written by the Prisma `update` — in
particular `logs` is the entire array assigned to the JSON log column. -/
inductive StoreOp
  | createRecord (row : DeploymentRow)
  | updateRecord (id : Nat) (status : String) (url : Option String) (logs : List LogEntry)
deriving Repr, DecidableEq

/-- A provider-adapter invocation made during an operation. -/
inductive AdapterCall
  | vercelCreate (token : String) (repositoryUrl : String) (projectName : String)
  | netlifyCreateSite (token : String) (repositoryUrl : String) (siteName : String)
deriving Repr, DecidableEq

/-- The status a store operation writes. -/
def StoreOp.statusOf : StoreOp → String
  | .createRecord r => r.status
  | .updateRecord _ st _ _ => st

/- ### Deployments service (deployments.service.ts) -/

/-- The JSON blob stored in `providerIntegration.encryptedToken`, as read
back by `JSON.parse` in the deployments service: an access token and a
demo flag. -/
structure TokenData where
  access_token : String
  demo : Bool
deriving Repr, DecidableEq

/-- Outcome of `vercelService.createDeployment` (a network call). -/
inductive VercelAdapterOutcome
  | ok (url : String) (dashboardUrl : Option String)
  | err (msg : String)
deriving Repr, DecidableEq

/-- The object `deployToVercel` returns to the controller. -/
structure VercelDeployResult where
  success : Bool
  status : String
  isDemo : Bool
  url : Option String
deriving Repr, DecidableEq

/-- `DeploymentsService.deployToVercel`.  Inputs: the request parameters,
the user's Vercel integration row (if any, already `JSON.parse`d), the
outcome of the real Vercel API call, the id Prisma assigns to the created
record, and the wall-clock time of the call (later log batches use `t+1`).
Output: the value returned to the caller, the deployment-table writes in
order, and the adapter calls made. -/
def deployToVercel (d : DeployParams) (integ : Option TokenData)
    (adapter : VercelAdapterOutcome) (recId t : Nat) :
    VercelDeployResult × List StoreOp × List AdapterCall :=
  match integ with
  | none =>
    let row : DeploymentRow :=
      { id := recId, projectId := d.projectId, branch := d.branch, commitSha := "latest"
        status := "requires_setup", provider := "vercel", environment := "production"
        configuration := d.buildSettings, url := none
        logs := [⟨t, "Deployment requires Vercel account connection", "warning"⟩]
        startedAt := t, createdBy := d.userId }
    ({ success := false, status := "requires_setup", isDemo := false, url := none },
     [.createRecord row], [])
  | some tok =>
    let row : DeploymentRow :=
      { id := recId, projectId := d.projectId, branch := d.branch, commitSha := "latest"
        status := "deploying", provider := "vercel", environment := "production"
        configuration := d.buildSettings, url := none
        logs := [⟨t, "Deployment started - connecting to Vercel...", "info"⟩]
        startedAt := t, createdBy := d.userId }
    let isReal := !tok.demo && tok.access_token != "demo-vercel-token"
    let opsCalls : List StoreOp × List AdapterCall :=
      if isReal then
        match adapter with
        | .ok u dash =>
          ([.createRecord row,
            .updateRecord recId "deployed" (some u)
              [⟨t + 1, "🚀 Real Vercel project created successfully!", "success"⟩,
               ⟨t + 1, "🎉 Live deployment: " ++ u, "success"⟩,
               ⟨t + 1, "📊 Dashboard: " ++ dash.getD "https://vercel.com/dashboard", "info"⟩]],
           [.vercelCreate tok.access_token d.repositoryUrl d.projectId])
        | .err m =>
          ([.createRecord row,
            .updateRecord recId "failed" none
              [⟨t + 1, "❌ Vercel deployment failed: " ++ m, "error"⟩]],
           [.vercelCreate tok.access_token d.repositoryUrl d.projectId])
      else
        ([.createRecord row,
          .updateRecord recId "demo_complete"
            (some ("https://" ++ d.projectId ++ "-demo.vercel.app"))
            [⟨t + 1, "✅ Demo deployment completed", "info"⟩,
             ⟨t + 1, "🔗 Demo URL generated (connect Vercel for real deployments)", "info"⟩]],
         [])
    ({ success := true
       status := if isReal then "deploying" else "demo_deployment"
       isDemo := !isReal
       url := some ("https://" ++ d.projectId ++ (if isReal then "" else "-demo") ++ ".vercel.app") },
     opsCalls.1, opsCalls.2)

/-- Result of `netlifyService.createSiteFromRepo` as consumed by
`deployToNetlify`. -/
structure NetlifySiteOutcome where
  status : String
  url : String
  automated : Bool
  gitConnected : Bool
  buildLogs : List String
deriving Repr, DecidableEq

/-- The object `deployToNetlify` returns to the controller. -/
structure NetlifyDeployResult where
  id : Nat
  status : String
  message : String
  provider : String
  isDemo : Bool
deriving Repr, DecidableEq

/-- `DeploymentsService.deployToNetlify`.  The record is created in status
`demo_deployment` before the integration lookup; the Netlify adapter is
invoked unconditionally (with `demo-token` when no real credential
exists), and the subsequent update replaces the log column. -/
def deployToNetlify (d : DeployParams) (integ : Option TokenData)
    (adapter : Except String NetlifySiteOutcome) (recId t : Nat) :
    NetlifyDeployResult × List StoreOp × List AdapterCall :=
  let row : DeploymentRow :=
    { id := recId, projectId := d.projectId, branch := d.branch, commitSha := "latest"
      status := "demo_deployment", provider := "netlify", environment := "production"
      configuration := d.buildSettings, url := none
      logs := [⟨t, "🎯 DEMO: This is a simulated deployment for demonstration purposes", "info"⟩,
               ⟨t, "Real deployments require connecting your Netlify account", "warning"⟩]
      startedAt := t, createdBy := d.userId }
  let tokReal : String × Bool :=
    match integ with
    | some tok =>
      if !tok.demo && tok.access_token != "demo-netlify-token" then (tok.access_token, true)
      else ("demo-token", false)
    | none => ("demo-token", false)
  let isReal := tokReal.2
  let ops : List StoreOp :=
    match adapter with
    | .ok res =>
      if isReal then
        [.createRecord row,
         .updateRecord recId
           (if res.status == "ready_for_setup" then "setup_required" else "deployed")
           (some res.url)
           ([⟨t + 1, "🎉 Netlify site created successfully!", "success"⟩,
             ⟨t + 1, "🔗 Site URL: " ++ res.url, "info"⟩,
             ⟨t + 1,
              if res.automated then
                if res.gitConnected then
                  "🔗 Git repository connected - continuous deployment enabled!"
                else "⚠️ Manual deployment created (Git connection failed)"
              else "📋 Connect your GitHub repo in Netlify dashboard to enable auto-deployments",
              if res.gitConnected then "success" else "warning"⟩] ++
            res.buildLogs.map fun l => ⟨t + 1, "📋 " ++ l, "info"⟩)]
      else
        [.createRecord row,
         .updateRecord recId "demo_complete" (some res.url)
           [⟨t + 1, "✅ Demo deployment completed", "success"⟩,
            ⟨t + 1, "🔗 Demo URL generated (connect Netlify for real deployments)", "info"⟩]]
    | .error m =>
      [.createRecord row,
       .updateRecord recId "failed" none
         [⟨t + 1, "❌ Deployment failed: " ++ m, "error"⟩]]
  ({ id := recId
     status := if isReal then "deploying" else "demo_deployment"
     message := if isReal then "Real Netlify deployment in progress..."
                else "Demo deployment in progress (not a real deployment)"
     provider := "netlify"
     isDemo := !isReal },
   ops, [.netlifyCreateSite tokReal.1 d.repositoryUrl d.projectId])

/- ### Rollback (deployments.service.ts, rollbackDeployment) -/

/-- Prisma `findFirst` on the deployments table by id and creator. -/
def findDeployment (store : List DeploymentRow) (deploymentId : Nat) (userId : String) :
    Option DeploymentRow :=
  store.find? fun r => r.id == deploymentId && r.createdBy == userId

/-- The `where` clause of the prior-deployment query: same project, status
`deployed`, started strictly before the record being rolled back from. -/
def rollbackCandidates (store : List DeploymentRow) (d : DeploymentRow) :
    List DeploymentRow :=
  store.filter fun r =>
    r.projectId == d.projectId && r.status == "deployed" &&
      decide (r.startedAt < d.startedAt)

/-- Accumulator step selecting the row with the largest `startedAt`
(`orderBy: { startedAt: 'desc' }` + `findFirst`); an earlier row wins ties. -/
def pickLater (acc : Option DeploymentRow) (r : DeploymentRow) : Option DeploymentRow :=
  match acc with
  | none => some r
  | some b => if b.startedAt < r.startedAt then some r else some b

/-- The row with maximal `startedAt` in `l`, if any. -/
def latestByStart (l : List DeploymentRow) : Option DeploymentRow :=
  l.foldl pickLater none

/-- The `previousDeployment` query of `rollbackDeployment`. -/
def previousDeployment (store : List DeploymentRow) (d : DeploymentRow) :
    Option DeploymentRow :=
  latestByStart (rollbackCandidates store d)

/-- `DeploymentsService.rollbackDeployment`: find the deployment, find the
most recent prior `deployed` record of the same project, and create a new
record copying its branch, commit, configuration and URL with status
`deployed`; the function body contains no provider-adapter invocation. -/
def rollbackDeployment (store : List DeploymentRow) (deploymentId : Nat)
    (userId : String) (newId t : Nat) :
    Except String DeploymentRow × List StoreOp × List AdapterCall :=
  match findDeployment store deploymentId userId with
  | none => (.error "Deployment not found", [], [])
  | some d =>
    match previousDeployment store d with
    | none => (.error "No previous deployment found for rollback", [], [])
    | some p =>
      let row : DeploymentRow :=
        { id := newId, projectId := d.projectId, branch := p.branch
          commitSha := p.commitSha, status := "deployed", provider := d.provider
          environment := d.environment, configuration := p.configuration
          url := p.url
          logs := [⟨t, "Rolled back to deployment " ++ toString p.id, "info"⟩]
          startedAt := t, createdBy := userId }
      (.ok row, [.createRecord row], [])

/- ### Credential connect (integrations controller, connectProvider) -/

/-- The string `JSON.stringify` produces for the object written to the
`encryptedToken` column: the user-supplied token (or the demo placeholder),
the demo flag, and optionally the validated provider-user identity (a
nested object in the source, abstracted here to its id string). -/
def jsonTokenBlob (token : Option String) (provider : String) (demo : Bool)
    (userInfo : Option String) : String :=
  let tok := token.getD ("demo-" ++ provider ++ "-token")
  let demoFlag := demo || token.isNone
  "\x7b\"access_token\":\"" ++ tok ++ "\",\"demo\":" ++
    (if demoFlag then "true" else "false") ++
    (match userInfo with
     | some u => ",\"userInfo\":\"" ++ u ++ "\""
     | none => "") ++ "\x7d"

/-- `IntegrationsController.connectProvider`, reduced to its store write:
returns whether the request succeeds and the value written to the stored
credential row's `encryptedToken` column (if the upsert is reached).
`validated` is the outcome of the provider `validateToken` call, consulted
only when a non-demo token is supplied. -/
def connectProvider (provider : String) (token : Option String) (demo : Bool)
    (validated : Option String) : Bool × Option String :=
  if provider == "netlify" || provider == "vercel" then
    if token.isSome && !demo then
      match validated with
      | none => (false, none)
      | some u => (true, some (jsonTokenBlob token provider demo (some u)))
    else (true, some (jsonTokenBlob token provider demo none))
  else (false, none)

/-- How the deployments service reads the token back out of the stored
column value (`JSON.parse(integration.encryptedToken).access_token`),
modelled as a direct scan of the stored string: everything between the
`"access_token":"` marker and the next quote. -/
def parseAccessToken (s : String) : Option String :=
  match charsAfterFirst "\"access_token\":\"".toList s.toList with
  | none => none
  | some rest => some ⟨rest.takeWhile (· != '\"')⟩

/- ### Credential vault (TokenVault, security documentation) -/

/-- A PBKDF2-derived key, modelled ideally as the record of its inputs
(master key, salt, iteration count): two derivations agree exactly when
their inputs agree. -/
structure DerivedKey where
  master : String
  salt : Nat
  iterations : Nat
deriving Repr, DecidableEq

/-- An ideal AES ciphertext: recoverable exactly with its key. -/
structure CipherText where
  key : DerivedKey
  plaintext : String
deriving Repr, DecidableEq

/-- An ideal GCM authentication tag over key, associated data and
ciphertext. -/
structure AuthTag where
  key : DerivedKey
  aad : String
  data : CipherText
deriving Repr, DecidableEq

/-- The envelope `TokenVault.encryptToken` returns. -/
structure EncryptedToken where
  encryptedData : CipherText
  salt : Nat
  iv : Nat
  authTag : AuthTag
  algorithm : String
  keyDerivationIterations : Nat
deriving Repr, DecidableEq

/-- The vault's key derivation (`crypto.pbkdf2Sync` with the process master
key, per-envelope salt and 100000 iterations). -/
def pbkdf2 (master : String) (salt : Nat) (iterations : Nat) : DerivedKey :=
  ⟨master, salt, iterations⟩

/-- `TokenVault.encryptToken`: fresh salt and IV are drawn from the caller
(modelling `crypto.randomBytes`), the key is derived from master key and
salt, the owner id is bound as GCM associated data, and the envelope
records ciphertext, salt, IV, auth tag, algorithm and iteration count.
As in the source, the generated IV is stored in the envelope but is not an
input of the cipher (the deprecated `createCipher` API ignores it). -/
def encryptToken (masterKey token userId : String) (saltRand ivRand : Nat) :
    EncryptedToken :=
  let key := pbkdf2 masterKey saltRand 100000
  let c : CipherText := ⟨key, token⟩
  { encryptedData := c, salt := saltRand, iv := ivRand
    authTag := ⟨key, userId, c⟩
    algorithm := "aes-256-gcm", keyDerivationIterations := 100000 }

/-- `TokenVault.decryptToken`: re-derive the key from the envelope's salt,
set the owner id as associated data, and authenticate; GCM decryption
yields the plaintext exactly when the recomputed tag matches the stored
one, and fails (`decipher.final` throws, modelled as `none`) otherwise. -/
def decryptToken (masterKey : String) (e : EncryptedToken) (userId : String) :
    Option String :=
  let key := pbkdf2 masterKey e.salt e.keyDerivationIterations
  if e.authTag = (⟨key, userId, e.encryptedData⟩ : AuthTag) then
    some e.encryptedData.plaintext
  else none

/- ### Netlify service (netlify.service.ts, createSiteFromRepo) -/

/-- The character sequence the repository-URL regex anchors on. -/
def githubMarker : List Char := "github.com/".toList

/-- Scanner for the regex `/github\.com\/([^\/]+)\/([^\/]+)/`: find an
occurrence of `github.com/` followed by a non-empty slash-free owner, a
slash, and a non-empty slash-free repo; on a failed attempt the scan
resumes at the next character, as regex backtracking does. -/
def githubMatchFrom : List Char → Option (List Char × List Char)
  | [] => none
  | c :: cs =>
    if startsWithChars githubMarker (c :: cs) then
      let rest := (c :: cs).drop githubMarker.length
      let owner := rest.takeWhile (· != '/')
      if owner.isEmpty then githubMatchFrom cs
      else
        match rest.drop owner.length with
        | '/' :: r2 =>
          let repo := r2.takeWhile (· != '/')
          if repo.isEmpty then githubMatchFrom cs else some (owner, repo)
        | _ => githubMatchFrom cs
    else githubMatchFrom cs

/-- The owner/repo capture groups of the repository-URL match, if any. -/
def matchGithubRepo (url : String) : Option (String × String) :=
  match githubMatchFrom url.toList with
  | none => none
  | some (owner, repo) => some (⟨owner⟩, ⟨repo⟩)

structure SiteParams where
  token : String
  repositoryUrl : String
  siteName : String
deriving Repr, DecidableEq

/-- A Netlify site as returned by the site-creation API; `url` is optional
because the source guards it with `site.url || fallback`. -/
structure SiteInfo where
  id : String
  url : Option String
  admin_url : String
deriving Repr, DecidableEq

/-- Outcome of `connectGitRepository` / `deployFromGitHubZip` (both are
total in the source: every failure is caught and returned as
`success: false`). -/
structure GitHookResult where
  success : Bool
  deployId : Option String
  logs : List String
deriving Repr, DecidableEq

/-- Oracle for every network interaction `createSiteFromRepo` performs:
the detected default branch (that helper never throws), the two
site-creation attempts (`none` models a non-ok or throwing response), the
git-connect and zip-deploy sub-strategies, the deploy-hook creation, and
`Date.now()`. -/
structure NetOracle where
  defaultBranch : String
  siteCreate : Option SiteInfo
  gitConnect : GitHookResult
  zipDeploy : GitHookResult
  fallbackSite : Option SiteInfo
  hookCreate : Option String
  now : Nat
deriving Repr, DecidableEq

/-- The union of the result-object shapes `createSiteFromRepo` returns
(fields absent in a given return are defaulted; the final fallback's
`demoMessage` is carried in `message`). -/
structure SiteResult where
  id : String
  url : String
  adminUrl : String
  status : String
  deployId : Option String
  message : String
  automated : Bool
  gitConnected : Bool
  buildLogs : List String
  deployHook : Option String
  setupInstructions : List String
  isDemo : Bool
  error : Option String
deriving Repr, DecidableEq, Inhabited

/-- `NetlifyService.createSiteFromRepo`.  Throws (`Except.error`) only when
the repository URL fails the GitHub pattern; every provider/API failure is
absorbed: primary site creation with git connect, zip-deploy fallback,
basic-site-with-deploy-hook fallback, and finally a fabricated demo
result. -/
def createSiteFromRepo (p : SiteParams) (o : NetOracle) : Except String SiteResult :=
  match matchGithubRepo p.repositoryUrl with
  | none => .error "Invalid GitHub repository URL"
  | some _ownerRepo =>
    let siteName := sanitizeName p.siteName
    match o.siteCreate with
    | some site =>
      let url := site.url.getD ("https://" ++ siteName ++ ".netlify.app")
      if o.gitConnect.success then
        .ok { id := site.id, url := url, adminUrl := site.admin_url, status := "deploying"
              deployId := o.gitConnect.deployId
              message := "🚀 Git repository connected! Continuous deployment enabled!"
              automated := true, gitConnected := true, buildLogs := o.gitConnect.logs
              deployHook := none, setupInstructions := [], isDemo := false, error := none }
      else
        .ok { id := site.id, url := url, adminUrl := site.admin_url
              status := if o.zipDeploy.success then "deploying" else "deploy_failed"
              deployId := o.zipDeploy.deployId
              message := if o.zipDeploy.success then
                  "⚠️ Manual deployment started (Git connection failed)"
                else "Site created but deployment failed. Check logs."
              automated := true, gitConnected := false, buildLogs := o.zipDeploy.logs
              deployHook := none, setupInstructions := [], isDemo := false, error := none }
    | none =>
      match o.fallbackSite with
      | some site =>
        .ok { id := site.id
              url := site.url.getD ("https://" ++ siteName ++ ".netlify.app")
              adminUrl := site.admin_url, status := "deploy_hook_created", deployId := none
              message := "Site created! Use deploy hook or connect GitHub manually in Netlify dashboard."
              automated := false, gitConnected := false, buildLogs := []
              deployHook := o.hookCreate
              setupInstructions :=
                ["1. Site created successfully in Netlify",
                 "2. Go to Netlify dashboard to connect GitHub repo",
                 "3. Or use the deploy hook for manual deployments",
                 "4. Deploy hook URL: " ++ o.hookCreate.getD "Check Netlify dashboard"]
              isDemo := false, error := none }
      | none =>
        .ok { id := "demo-" ++ toString o.now
              url := "https://" ++ siteName ++ "-demo.netlify.app"
              adminUrl := "https://app.netlify.com/sites/" ++ siteName ++ "-demo"
              status := "github_access_error", deployId := none
              message := "GitHub access error. You need to authorize Netlify to access your GitHub repositories."
              automated := false, gitConnected := false, buildLogs := []
              deployHook := none
              setupInstructions :=
                ["1. Go to Netlify dashboard",
                 "2. Connect your GitHub account in Settings",
                 "3. Authorize repository access",
                 "4. Try deploying again"]
              isDemo := true, error := some "GitHub access rights needed" }

/- ### Trace predicates -/

/-- Whether a store operation is a record creation. -/
def isCreate : StoreOp → Bool
  | .createRecord _ => true
  | _ => false

/-- The shape every deployment flow's write trace has: either a single
creation in the credential-missing status, or a creation in an in-progress
status followed by exactly one update of the same record to a final
status with a non-empty replacement log. -/
def flowTraceOk : List StoreOp → Prop
  | [StoreOp.createRecord r] => r.status = "requires_setup"
  | [StoreOp.createRecord r, StoreOp.updateRecord i st _ ls] =>
      i = r.id ∧ (r.status = "deploying" ∨ r.status = "demo_deployment") ∧
      (st = "deployed" ∨ st = "failed" ∨ st = "demo_complete" ∨ st = "setup_required") ∧
      ls ≠ []
  | _ => False

/-- Boolean check that every update in a trace retains all log entries the
same record was created with (the claim's append-only reading of log
writes). -/
def updatesPreserveLogs (ops : List StoreOp) : Bool :=
  ops.all fun op =>
    match op with
    | .updateRecord i _ _ ls =>
      ops.all fun op2 =>
        match op2 with
        | .createRecord r => !(r.id == i) || r.logs.all fun e => ls.contains e
        | _ => true
    | _ => true

/- ### C5 fixtures -/

def c5Repo : RepoData :=
  { name := "web-app"
    packageJson := some { dependencies := some [("react", "18.2.0")], devDependencies := none }
    dockerFile := none }

def c5AnalysisA : AnalysisResult :=
  { framework := { name := "React", version := "18.2.0", confidence := 1 }
    buildSettings := { buildCommand := "npm run build", startCommand := "npm start"
                       outputDirectory := "build", installCommand := "npm install" }
    deployment := { recommendedProvider := "netlify", reason := "static SPA"
                    estimatedCost := "Free tier available" } }

def c5AnalysisB : AnalysisResult :=
  { framework := { name := "Next.js", version := "14.0.0", confidence := 1 }
    buildSettings := { buildCommand := "npm run build", startCommand := "npm start"
                       outputDirectory := ".next", installCommand := "npm install" }
    deployment := { recommendedProvider := "vercel", reason := "SSR framework"
                    estimatedCost := "Free tier available" } }

/-- C5 counterexample: the analysis operation is not a function of the
repository signal data alone — two runs on the identical `c5Repo` whose
external AI completions differ produce different outputs. -/
theorem c5_counterexample :
    analyzeRepositoryWithAI c5Repo (.parsed c5AnalysisA) ≠
      analyzeRepositoryWithAI c5Repo (.parsed c5AnalysisB) := by
  decide

/-- C5 (amended): the analysis output is a deterministic function of the
repository data together with the external AI-completion outcome; whenever
the AI call throws or its response fails JSON parsing, the output is the
pure rule-based fallback `getFallbackAnalysis` of the repository data, and
on a parsed response the output is exactly the AI-supplied value. -/
theorem c5_analysis_determinism :
    ∀ rd : RepoData,
      analyzeRepositoryWithAI rd .err = getFallbackAnalysis rd ∧
      analyzeRepositoryWithAI rd .unparseable = getFallbackAnalysis rd ∧
      ∀ a, analyzeRepositoryWithAI rd (.parsed a) = a :=
  fun _ => ⟨rfl, rfl, fun _ => rfl⟩

/- ### C8 fixtures -/

def dockerOnlyRepo : RepoData :=
  { name := "docker-app", packageJson := none, dockerFile := some "FROM node:18" }

def emptyPackageJson : PackageJson :=
  { dependencies := some [], devDependencies := none }

/-- C8: at the Dockerfile-only signal bag the implemented detection has no
Docker rule — the fallback analysis returns framework `Unknown` with
confidence 0.7 (not `Docker` with 1.0), and `detectFramework`, which never
consults the Dockerfile, yields `Node.js` with 0.6 on a manifest without
framework dependencies. -/
theorem c8_no_docker_rule :
    (getFallbackAnalysis dockerOnlyRepo).framework.name = "Unknown" ∧
    (getFallbackAnalysis dockerOnlyRepo).framework.confidence = (7 : ℚ) / 10 ∧
    (getFallbackAnalysis dockerOnlyRepo).framework.name ≠ "Docker" ∧
    (getFallbackAnalysis dockerOnlyRepo).framework.confidence ≠ 1 ∧
    (detectFramework emptyPackageJson).name = "Node.js" ∧
    (detectFramework emptyPackageJson).confidence = (60 : ℚ) / 100 := by
  refine ⟨rfl, rfl, by decide, by norm_num [getFallbackAnalysis], rfl, rfl⟩

/- ### C10 -/

/-- C10: a deployment request whose provider is neither `vercel` nor
`netlify` is not rejected — the switch's default arm dispatches it to the
Netlify path with exactly the parameters a `netlify` request would get. -/
theorem c10_default_provider_netlify (u : String) (d : DeploymentRequest)
    (h1 : d.provider ≠ some "vercel") (h2 : d.provider ≠ some "netlify") :
    createDeployment u d = .toNetlify (mkDeployParams u d) ∧
    createDeployment u d = createDeployment u { d with provider := some "netlify" } := by
  constructor
  · simp [createDeployment, h1, h2]
  · simp [createDeployment, h1, h2, mkDeployParams]

def c10Req : DeploymentRequest :=
  { projectId := "app", repositoryUrl := "https://github.com/a/b"
    branch := none, provider := some "railway", buildSettings := none }

/-- C10 witness at a concrete unsupported provider. -/
theorem c10_default_provider_netlify_witness :
    createDeployment "u1" c10Req = .toNetlify (mkDeployParams "u1" c10Req) ∧
    createDeployment "u1" c10Req =
      createDeployment "u1" { c10Req with provider := some "netlify" } :=
  c10_default_provider_netlify "u1" c10Req (by decide) (by decide)

/- ### C7 -/

/-- C7: each envelope carries the fresh salt/IV it was encrypted with, so
encryptions under distinct salts give distinct envelopes; decryption with
the same owner id recovers the secret; and because the owner id is bound
as GCM associated data, decryption with any different owner id fails. -/
theorem c7_envelope_properties (mk tok u u2 : String) (s1 s2 i1 i2 : Nat) :
    (s1 ≠ s2 → encryptToken mk tok u s1 i1 ≠ encryptToken mk tok u s2 i2) ∧
    decryptToken mk (encryptToken mk tok u s1 i1) u = some tok ∧
    (u2 ≠ u → decryptToken mk (encryptToken mk tok u s1 i1) u2 = none) := by
  refine ⟨?_, ?_, ?_⟩
  · intro hs he
    exact hs (congrArg EncryptedToken.salt he)
  · simp [decryptToken, encryptToken, pbkdf2]
  · intro hu
    simp [decryptToken, encryptToken, pbkdf2, AuthTag.mk.injEq]
    exact fun h => absurd h.symm hu

/-- C7 witness at concrete secrets, owners and entropy draws. -/
theorem c7_envelope_properties_witness :
    encryptToken "master" "tok" "alice" 1 10 ≠ encryptToken "master" "tok" "alice" 2 11 ∧
    decryptToken "master" (encryptToken "master" "tok" "alice" 1 10) "alice" = some "tok" ∧
    decryptToken "master" (encryptToken "master" "tok" "alice" 1 10) "bob" = none :=
  ⟨(c7_envelope_properties "master" "tok" "alice" "bob" 1 2 10 11).1 (by decide),
   (c7_envelope_properties "master" "tok" "alice" "bob" 1 2 10 11).2.1,
   (c7_envelope_properties "master" "tok" "alice" "bob" 1 2 10 11).2.2 (by decide)⟩

/- ### C2 -/

def c2Stored : Option String :=
  (connectProvider "netlify" (some "secret-tok-123") false (some "uid-1")).2

/-- C2: the credential-connect operation writes the user-supplied provider
token to the `encryptedToken` column in recoverable plaintext — the stored
value is a JSON string that literally contains the secret, and the very
parse the deployments service performs on that column recovers it without
any key. -/
theorem c2_plaintext_token_stored :
    c2Stored =
      some "\x7b\"access_token\":\"secret-tok-123\",\"demo\":false,\"userInfo\":\"uid-1\"\x7d" ∧
    (∃ p q, c2Stored = some (p ++ "secret-tok-123" ++ q)) ∧
    parseAccessToken
      "\x7b\"access_token\":\"secret-tok-123\",\"demo\":false,\"userInfo\":\"uid-1\"\x7d" =
      some "secret-tok-123" := by
  refine ⟨rfl, ⟨"\x7b\"access_token\":\"", "\",\"demo\":false,\"userInfo\":\"uid-1\"\x7d", rfl⟩, ?_⟩
  decide

/- ### C6 fixtures -/

def c6Req : DeploymentRequest :=
  { projectId := "shop", repositoryUrl := "https://github.com/a/shop"
    branch := none, provider := some "netlify", buildSettings := none }

def c6Params : DeployParams := mkDeployParams "u1" c6Req

def c6Outcome : NetlifySiteOutcome :=
  { status := "deploying", url := "https://shop-demo.netlify.app"
    automated := true, gitConnected := false, buildLogs := [] }

def c6Run1 : NetlifyDeployResult × List StoreOp × List AdapterCall :=
  deployToNetlify c6Params none (.ok c6Outcome) 1 0

def c6Run2 : NetlifyDeployResult × List StoreOp × List AdapterCall :=
  deployToNetlify c6Params none (.ok c6Outcome) 2 5

/-- C6 counterexample: two identical deployment requests issued while the
first run is non-terminal are BOTH accepted — each is dispatched and
creates its own record, and zero conflict rejections occur, contradicting
the claimed one-success/one-conflict outcome. -/
theorem c6_counterexample :
    createDeployment "u1" c6Req = .toNetlify c6Params ∧
    c6Run1.1.status = "demo_deployment" ∧
    c6Run2.1.status = "demo_deployment" ∧
    List.count "conflict" [c6Run1.1.status, c6Run2.1.status] = 0 ∧
    (c6Run1.2.1 ++ c6Run2.2.1).countP isCreate = 2 := by
  refine ⟨rfl, rfl, rfl, by decide, by decide⟩

/-- C6 (amended): the controller performs no concurrency control — every
request is dispatched straight to a deploy path, and each service call
creates exactly one fresh record and never produces a conflict status. -/
theorem c6_no_conflict_check :
    (∀ u d, createDeployment u d = .toVercel (mkDeployParams u d) ∨
            createDeployment u d = .toNetlify (mkDeployParams u d)) ∧
    (∀ p integ adapter recId t,
      ((deployToNetlify p integ adapter recId t).2.1.countP isCreate = 1) ∧
      (deployToNetlify p integ adapter recId t).1.status ≠ "conflict") ∧
    (∀ p integ adapter recId t,
      ((deployToVercel p integ adapter recId t).2.1.countP isCreate = 1) ∧
      (deployToVercel p integ adapter recId t).1.status ≠ "conflict") := by
  refine ⟨?_, ?_, ?_⟩
  · intro u d
    unfold createDeployment
    split
    · exact Or.inl rfl
    · split
      · exact Or.inr rfl
      · exact Or.inr rfl
  · intro p integ adapter recId t
    unfold deployToNetlify
    rcases integ with _ | tok <;> rcases adapter with m | res <;>
      simp [isCreate] <;> split <;> simp [isCreate]
  · intro p integ adapter recId t
    unfold deployToVercel
    rcases integ with _ | tok
    · simp [isCreate]
    · rcases adapter with ⟨u, dash⟩ | m <;> simp [isCreate] <;> split <;> simp [isCreate]

/- ### C1 fixtures -/

def c1Params : DeployParams :=
  { userId := "u1", projectId := "my-app", repositoryUrl := "https://github.com/a/my-app"
    branch := "main", buildSettings := ⟨"npm run build", "build", "npm install"⟩
    githubToken := "user-github-token" }

def c1DemoTok : TokenData := { access_token := "demo-vercel-token", demo := true }

def c1Ops : List StoreOp :=
  (deployToVercel c1Params (some c1DemoTok) (.err "unused") 7 0).2.1

/-- C1 counterexample: in the demo Vercel flow the status update REPLACES
the record's log array — the entry written at creation is absent from the
updated log — so updates do not preserve previously written log entries;
the trace also shows the record never holds status `queued`. -/
theorem c1_counterexample :
    updatesPreserveLogs c1Ops = false ∧
    c1Ops.map StoreOp.statusOf = ["deploying", "demo_complete"] := by
  constructor
  · decide
  · rfl

/-- C1 (amended): each deployment-record write trace consists of one
creation directly in status `requires_setup`, `deploying` or
`demo_deployment` (never `queued`), followed by at most one update that
sets a final status (`deployed`, `failed`, `demo_complete` or
`setup_required`) and assigns a non-empty replacement log array; no write
follows that update. -/
theorem c1_write_trace_shape :
    ∀ (d : DeployParams) (integ : Option TokenData) (aV : VercelAdapterOutcome)
      (aN : Except String NetlifySiteOutcome) (recId t : Nat),
      flowTraceOk (deployToVercel d integ aV recId t).2.1 ∧
      flowTraceOk (deployToNetlify d integ aN recId t).2.1 := by
  intro d integ aV aN recId t
  constructor
  · dsimp only [deployToVercel]
    rcases integ with _ | tok
    · simp [flowTraceOk]
    · dsimp only
      rcases aV with ⟨u, dash⟩ | m <;> dsimp only <;> split <;> simp [flowTraceOk]
  · dsimp only [deployToNetlify]
    rcases integ with _ | tok <;> rcases aN with m | res <;> dsimp only <;>
      (try split) <;> simp [flowTraceOk] <;> (try split) <;> simp <;> tauto

/- ### C4 fixtures -/

def c4Params : DeployParams :=
  { userId := "u2", projectId := "blog", repositoryUrl := "https://github.com/a/blog"
    branch := "main", buildSettings := ⟨"npm run build", "build", "npm install"⟩
    githubToken := "user-github-token" }

def c4Outcome : NetlifySiteOutcome :=
  { status := "deploying", url := "https://blog-demo.netlify.app"
    automated := true, gitConnected := false, buildLogs := [] }

def c4Run : NetlifyDeployResult × List StoreOp × List AdapterCall :=
  deployToNetlify c4Params none (.ok c4Outcome) 3 0

/-- C4 counterexample: a Netlify deployment request with NO credential for
the provider still performs a deployment attempt — the adapter is invoked
with the demo token — and the run terminates in `demo_complete`, not in
the needs-setup status, so the claimed behaviour does not hold uniformly
for every provider. -/
theorem c4_counterexample :
    c4Run.2.2 = [AdapterCall.netlifyCreateSite "demo-token"
                   "https://github.com/a/blog" "blog"] ∧
    c4Run.2.1.map StoreOp.statusOf = ["demo_deployment", "demo_complete"] ∧
    "demo_complete" ≠ "requires_setup" ∧ "demo_complete" ≠ "needs_setup" := by
  refine ⟨rfl, rfl, by decide, by decide⟩

/-- C4 (amended): with no stored credential, the VERCEL path does
terminate in the terminal `requires_setup` status with zero adapter calls
and no deployment attempt; the NETLIFY path instead always invokes the
adapter with the `demo-token` placeholder and none of its record writes
ever carries a needs-setup status. -/
theorem c4_vercel_requires_setup_netlify_proceeds :
    ∀ (d : DeployParams) (aV : VercelAdapterOutcome)
      (aN : Except String NetlifySiteOutcome) (recId t : Nat),
      ((deployToVercel d none aV recId t).1.success = false ∧
       (deployToVercel d none aV recId t).1.status = "requires_setup" ∧
       (deployToVercel d none aV recId t).2.2 = [] ∧
       (deployToVercel d none aV recId t).2.1.map StoreOp.statusOf = ["requires_setup"]) ∧
      ((deployToNetlify d none aN recId t).2.2 =
         [AdapterCall.netlifyCreateSite "demo-token" d.repositoryUrl d.projectId] ∧
       (deployToNetlify d none aN recId t).1.status = "demo_deployment" ∧
       ((deployToNetlify d none aN recId t).2.1.all
          fun op => op.statusOf != "requires_setup" && op.statusOf != "needs_setup") = true) := by
  intro d aV aN recId t
  refine ⟨⟨rfl, rfl, rfl, rfl⟩, ?_, rfl, ?_⟩
  · rfl
  · unfold deployToNetlify
    rcases aN with m | res <;> simp [StoreOp.statusOf]

/- ### C9 -/

/-- C9: whenever the repository URL matches the GitHub owner/repo pattern,
`createSiteFromRepo` returns a result for every combination of provider
outcomes (it never throws), and in the total-failure case the result is
the fabricated demo object: `isDemo` set, id `demo-<now>`, URL
`https://<site-name>-demo.netlify.app`. -/
theorem c9_total_on_github_urls (p : SiteParams) (o : NetOracle)
    (h : (matchGithubRepo p.repositoryUrl).isSome = true) :
    (createSiteFromRepo p o).isOk = true ∧
    (o.siteCreate = none → o.fallbackSite = none →
      ∃ r, createSiteFromRepo p o = Except.ok r ∧ r.isDemo = true ∧
        r.id = "demo-" ++ toString o.now ∧
        r.url = "https://" ++ sanitizeName p.siteName ++ "-demo.netlify.app") := by
  obtain ⟨pr, hm⟩ := Option.isSome_iff_exists.mp h
  constructor
  · unfold createSiteFromRepo
    rw [hm]
    dsimp only
    rcases o.siteCreate with _ | site <;> dsimp only
    · rcases o.fallbackSite with _ | fsite <;> dsimp only <;> rfl
    · split <;> rfl
  · intro h1 h2
    simp only [createSiteFromRepo, hm, h1, h2]
    exact ⟨_, rfl, rfl, rfl, rfl⟩

def c9Params : SiteParams :=
  { token := "demo-token", repositoryUrl := "https://github.com/foo/bar"
    siteName := "My Site" }

def c9Oracle : NetOracle :=
  { defaultBranch := "main", siteCreate := none, gitConnect := ⟨false, none, []⟩
    zipDeploy := ⟨false, none, []⟩, fallbackSite := none, hookCreate := none, now := 42 }

/-- C9 witness: a concrete matching URL with every provider call failing. -/
theorem c9_total_on_github_urls_witness :
    (createSiteFromRepo c9Params c9Oracle).isOk = true ∧
    (∃ r, createSiteFromRepo c9Params c9Oracle = Except.ok r ∧ r.isDemo = true ∧
      r.id = "demo-" ++ toString c9Oracle.now ∧
      r.url = "https://" ++ sanitizeName c9Params.siteName ++ "-demo.netlify.app") :=
  ⟨(c9_total_on_github_urls c9Params c9Oracle (by decide)).1,
   (c9_total_on_github_urls c9Params c9Oracle (by decide)).2 rfl rfl⟩

/- ### C3 lemmas -/

/-- Folding `pickLater` from a seed yields a row that is the seed or a list
element, is at least as late as the seed, and is at least as late as every
list element. -/
lemma foldl_pickLater_spec (l : List DeploymentRow) :
    ∀ b : DeploymentRow, ∃ p, l.foldl pickLater (some b) = some p ∧
      (p = b ∨ p ∈ l) ∧ b.startedAt ≤ p.startedAt ∧
      ∀ q ∈ l, q.startedAt ≤ p.startedAt := by
  induction l with
  | nil =>
    intro b
    exact ⟨b, rfl, Or.inl rfl, le_refl _, by simp⟩
  | cons r rs ih =>
    intro b
    simp only [List.foldl_cons, pickLater]
    by_cases hbr : b.startedAt < r.startedAt
    · rw [if_pos hbr]
      obtain ⟨p, hp, hmem, hge, hall⟩ := ih r
      refine ⟨p, hp, ?_, le_trans (le_of_lt hbr) hge, ?_⟩
      · rcases hmem with h | h
        · exact Or.inr (by simp [h])
        · exact Or.inr (List.mem_cons_of_mem _ h)
      · intro q hq
        rcases List.mem_cons.mp hq with h | h
        · rw [h]; exact hge
        · exact hall q h
    · rw [if_neg hbr]
      obtain ⟨p, hp, hmem, hge, hall⟩ := ih b
      refine ⟨p, hp, ?_, hge, ?_⟩
      · rcases hmem with h | h
        · exact Or.inl h
        · exact Or.inr (List.mem_cons_of_mem _ h)
      · intro q hq
        rcases List.mem_cons.mp hq with h | h
        · rw [h]; exact le_trans (le_of_not_lt hbr) hge
        · exact hall q h

/-- `latestByStart` returns a member dominating the whole list in
`startedAt`, and `none` exactly on the empty list. -/
lemma latestByStart_spec (l : List DeploymentRow) :
    (l = [] ∧ latestByStart l = none) ∨
    (∃ p, latestByStart l = some p ∧ p ∈ l ∧
      ∀ q ∈ l, q.startedAt ≤ p.startedAt) := by
  cases l with
  | nil => exact Or.inl ⟨rfl, rfl⟩
  | cons r rs =>
    right
    obtain ⟨p, hp, hmem, hge, hall⟩ := foldl_pickLater_spec rs r
    refine ⟨p, ?_, ?_, ?_⟩
    · simpa [latestByStart, pickLater] using hp
    · rcases hmem with h | h
      · simp [h]
      · exact List.mem_cons_of_mem _ h
    · intro q hq
      rcases List.mem_cons.mp hq with h | h
      · rw [h]; exact hge
      · exact hall q h

/-- Membership in the prior-deployment candidate list, unfolded to the
query conditions. -/
lemma mem_rollbackCandidates (store : List DeploymentRow) (d r : DeploymentRow) :
    r ∈ rollbackCandidates store d ↔
      r ∈ store ∧ r.projectId = d.projectId ∧ r.status = "deployed" ∧
        r.startedAt < d.startedAt := by
  simp [rollbackCandidates, List.mem_filter, and_assoc]

/- ### C3 -/

/-- C3: a rollback makes zero provider-adapter calls; every successful
rollback creates exactly one NEW record that copies the branch, commit,
configuration and URL of a store row that is of the same project, has
status `deployed`, started strictly before the rolled-back-from record and
is the latest such row, and the new record itself has status `deployed`
immediately; and when no such prior row exists the operation fails with
the no-prior-deployment error and writes nothing. -/
theorem c3_rollback_correct (store : List DeploymentRow) (deploymentId : Nat)
    (userId : String) (newId t : Nat) :
    (rollbackDeployment store deploymentId userId newId t).2.2 = [] ∧
    (∀ r, (rollbackDeployment store deploymentId userId newId t).1 = Except.ok r →
      ∃ d p, findDeployment store deploymentId userId = some d ∧
        p ∈ store ∧ p.projectId = d.projectId ∧ p.status = "deployed" ∧
        p.startedAt < d.startedAt ∧
        (∀ q ∈ store, q.projectId = d.projectId → q.status = "deployed" →
          q.startedAt < d.startedAt → q.startedAt ≤ p.startedAt) ∧
        r.branch = p.branch ∧ r.commitSha = p.commitSha ∧
        r.configuration = p.configuration ∧ r.url = p.url ∧
        r.status = "deployed" ∧ r.id = newId ∧
        (rollbackDeployment store deploymentId userId newId t).2.1 =
          [StoreOp.createRecord r]) ∧
    (∀ d, findDeployment store deploymentId userId = some d →
      (∀ q ∈ store, q.projectId = d.projectId → q.status = "deployed" →
        ¬ q.startedAt < d.startedAt) →
      (rollbackDeployment store deploymentId userId newId t).1 =
        Except.error "No previous deployment found for rollback" ∧
      (rollbackDeployment store deploymentId userId newId t).2.1 = []) := by
  refine ⟨?_, ?_, ?_⟩
  · rcases h1 : findDeployment store deploymentId userId with _ | d
    · simp [rollbackDeployment, h1]
    · rcases h2 : previousDeployment store d with _ | p <;>
        simp [rollbackDeployment, h1, h2]
  · intro r hr
    rcases h1 : findDeployment store deploymentId userId with _ | d
    · simp [rollbackDeployment, h1] at hr
    · rcases h2 : previousDeployment store d with _ | p
      · simp [rollbackDeployment, h1, h2] at hr
      · rcases latestByStart_spec (rollbackCandidates store d) with ⟨hnil, hn⟩ | ⟨p2, hp2, hmem, hall⟩
        · rw [previousDeployment, hn] at h2; cases h2
        · rw [previousDeployment, hp2] at h2
          injection h2 with h2
          subst h2
          have hprops := (mem_rollbackCandidates store d p2).mp hmem
          simp only [rollbackDeployment, h1, previousDeployment, hp2] at hr ⊢
          injection hr with hrow
          subst hrow
          refine ⟨d, p2, rfl, hprops.1, hprops.2.1, hprops.2.2.1, hprops.2.2.2, ?_, ?_⟩
          · intro q hq hproj hst hlt
            exact hall q ((mem_rollbackCandidates store d q).mpr ⟨hq, hproj, hst, hlt⟩)
          · exact ⟨rfl, rfl, rfl, rfl, rfl, rfl, rfl⟩
  · intro d hd hnone
    rcases h2 : previousDeployment store d with _ | p
    · simp [rollbackDeployment, hd, h2]
    · exfalso
      rcases latestByStart_spec (rollbackCandidates store d) with ⟨hnil, hn⟩ | ⟨p2, hp2, hmem, hall⟩
      · rw [previousDeployment, hn] at h2; cases h2
      · have hprops := (mem_rollbackCandidates store d p2).mp hmem
        exact hnone p2 hprops.1 hprops.2.1 hprops.2.2.1 hprops.2.2.2

/- ### C3 fixtures and witness -/

def c3RowA : DeploymentRow :=
  { id := 1, projectId := "proj", branch := "main", commitSha := "abc"
    status := "deployed", provider := "netlify", environment := "production"
    configuration := ⟨"npm run build", "build", "npm install"⟩
    url := some "https://old.netlify.app", logs := [], startedAt := 10, createdBy := "u1" }

def c3RowB : DeploymentRow :=
  { id := 2, projectId := "proj", branch := "dev", commitSha := "def"
    status := "failed", provider := "netlify", environment := "production"
    configuration := ⟨"npm run build", "dist", "npm install"⟩
    url := none, logs := [], startedAt := 20, createdBy := "u1" }

def c3Store : List DeploymentRow := [c3RowA, c3RowB]

def c3NewRow : DeploymentRow :=
  { id := 3, projectId := "proj", branch := "main", commitSha := "abc"
    status := "deployed", provider := "netlify", environment := "production"
    configuration := ⟨"npm run build", "build", "npm install"⟩
    url := some "https://old.netlify.app"
    logs := [⟨30, "Rolled back to deployment 1", "info"⟩]
    startedAt := 30, createdBy := "u1" }

/-- C3 witness: rolling back the failed record 2 of the concrete store
copies record 1's branch/commit/configuration/URL into a new `deployed`
record with no adapter call. -/
theorem c3_rollback_correct_witness :
    (rollbackDeployment c3Store 2 "u1" 3 30).2.2 = [] ∧
    (∃ d p, findDeployment c3Store 2 "u1" = some d ∧
      p ∈ c3Store ∧ p.projectId = d.projectId ∧ p.status = "deployed" ∧
      p.startedAt < d.startedAt ∧
      (∀ q ∈ c3Store, q.projectId = d.projectId → q.status = "deployed" →
        q.startedAt < d.startedAt → q.startedAt ≤ p.startedAt) ∧
      c3NewRow.branch = p.branch ∧ c3NewRow.commitSha = p.commitSha ∧
      c3NewRow.configuration = p.configuration ∧ c3NewRow.url = p.url ∧
      c3NewRow.status = "deployed" ∧ c3NewRow.id = 3 ∧
      (rollbackDeployment c3Store 2 "u1" 3 30).2.1 =
        [StoreOp.createRecord c3NewRow]) :=
  ⟨(c3_rollback_correct c3Store 2 "u1" 3 30).1,
   (c3_rollback_correct c3Store 2 "u1" 3 30).2.1 c3NewRow rfl⟩
